import Mathlib

/-!
# Verification of the grid-trading state/risk engine

Shallow embedding of the grid trading control core (`trader/grid` methods of
`AutoTrader`): grid-level bookkeeping, geometry calculation, the risk limiter
gating limit orders, the decision executor, exchange-state reconciliation and
stop-loss enforcement.  Go `float64` values are modelled as `ℚ`; the Go map
`OrderBook map[string]int` is modelled as an association list with map-style
insert/erase; exchange calls are modelled by explicit oracle records holding
the result each call would return.  Structures keep the Go field names.
-/

attribute [local semireducible] Rat.mul Rat.inv Rat.add Rat.sub

namespace Grid

/-- One slot in the price ladder (`kernel.GridLevelInfo`, as used by the
grid engine). -/
structure GridLevelInfo where
  Index : Nat
  Price : ℚ
  State : String
  Side : String
  AllocatedUSD : ℚ
  OrderID : String
  OrderQuantity : ℚ
  PositionEntry : ℚ
  PositionSize : ℚ
  UnrealizedPnL : ℚ
  deriving DecidableEq, Repr, Inhabited

/-- Grid configuration (`store.GridStrategyConfig`), fields as read by the
engine. -/
structure GridStrategyConfig where
  Symbol : String
  GridCount : Int
  TotalInvestment : ℚ
  Leverage : Int
  Distribution : String
  StopLossPct : ℚ
  UpperPrice : ℚ
  LowerPrice : ℚ
  UseATRBounds : Bool
  ATRMultiplier : ℚ
  UseMakerOnly : Bool
  deriving DecidableEq, Repr, Inhabited

/-- Runtime state for grid trading (`GridState`).  The Go `sync.RWMutex` and
the fields only used for logging are not part of the functional state. -/
structure GridState where
  Config : GridStrategyConfig
  Levels : List GridLevelInfo
  UpperPrice : ℚ
  LowerPrice : ℚ
  GridSpacing : ℚ
  IsPaused : Bool
  IsInitialized : Bool
  TotalProfit : ℚ
  TotalTrades : Int
  WinningTrades : Int
  MaxDrawdown : ℚ
  PeakEquity : ℚ
  DailyPnL : ℚ
  OrderBook : List (String × Int)
  deriving DecidableEq, Repr, Inhabited

/-- One externally produced decision (`kernel.Decision`), the fields the grid
executor reads. -/
structure Decision where
  Action : String
  Symbol : String
  Quantity : ℚ
  Price : ℚ
  LevelIndex : Int
  OrderID : String
  Reasoning : String
  deriving DecidableEq, Repr, Inhabited

/-- One exchange position as consumed by the engine: the dynamic
`map[string]interface{}` fields it actually reads, optional when absent. -/
structure PositionInfo where
  symbol : String
  positionAmt : Option ℚ
  markPrice : Option ℚ
  entryPrice : Option ℚ
  unRealizedProfit : Option ℚ
  deriving DecidableEq, Repr, Inhabited

/-- Result of a successful `PlaceLimitOrder` exchange call. -/
structure PlaceOrderResult where
  OrderID : String
  deriving DecidableEq, Repr, Inhabited

/-! ## Order-book association list (Go `map[string]int` semantics) -/

/-- Lookup in the order book, first match wins (entries are kept key-unique
by `obInsert`/`obErase`, mirroring Go map semantics). -/
def obLookup : List (String × Int) → String → Option Int
  | [], _ => none
  | p :: rest, k => if p.1 = k then some p.2 else obLookup rest k

/-- Delete every entry with the given key (Go `delete(m, k)`). -/
def obErase (k : String) : List (String × Int) → List (String × Int)
  | [] => []
  | p :: rest => if p.1 = k then obErase k rest else p :: obErase k rest

/-- Map-style insert (Go `m[k] = v`): overwrites any existing binding. -/
def obInsert (k : String) (v : Int) (ob : List (String × Int)) :
    List (String × Int) :=
  (k, v) :: obErase k ob

/-- Model of `NewGridState`: fresh state with empty levels and order book. -/
def NewGridState (cfg : GridStrategyConfig) : GridState :=
  { Config := cfg, Levels := [], UpperPrice := 0, LowerPrice := 0,
    GridSpacing := 0, IsPaused := false, IsInitialized := false,
    TotalProfit := 0, TotalTrades := 0, WinningTrades := 0, MaxDrawdown := 0,
    PeakEquity := 0, DailyPnL := 0, OrderBook := [] }

/-- Level read by index with the zero value as default, mirroring Go slice
indexing that the engine always guards by a range check. -/
def levelAt (st : GridState) (i : Nat) : GridLevelInfo :=
  st.Levels.getD i default

/-! ## Grid geometry (`calculateDefaultBounds`, `calculateATRBounds`,
`gridWeights` / `initializeGridLevels`, `InitializeGrid`) -/

/-- Model of `calculateDefaultBounds`: ±3% × (levelCount/10) around the price;
returns (upper, lower). -/
def calculateDefaultBounds (cfg : GridStrategyConfig) (price : ℚ) : ℚ × ℚ :=
  let multiplier := (3 / 100 : ℚ) * (cfg.GridCount : ℚ) / 10
  (price * (1 + multiplier), price * (1 - multiplier))

/-- Model of `calculateATRBounds`: price ± ATR × multiplier (default multiplier 2 when
non-positive); falls back to default bounds when ATR ≤ 0. -/
def calculateATRBounds (cfg : GridStrategyConfig) (price atr : ℚ) : ℚ × ℚ :=
  if atr ≤ 0 then calculateDefaultBounds cfg price
  else
    let multiplier := if cfg.ATRMultiplier ≤ 0 then 2 else cfg.ATRMultiplier
    let halfRange := atr * multiplier
    (price + halfRange, price - halfRange)

/-- Per-level distribution weights computed by the loop in
`initializeGridLevels`.  The gaussian weight `exp(-(i-center)²/(2σ²))` is a
transcendental function of the index; it is modelled by the parameter
`gauss`, whose only property used anywhere is the strict positivity that
`exp` enjoys. -/
def gridWeights (cfg : GridStrategyConfig) (gauss : Nat → ℚ) : List ℚ :=
  (List.range cfg.GridCount.toNat).map fun i =>
    if cfg.Distribution = "gaussian" then gauss i
    else if cfg.Distribution = "pyramid" then (cfg.GridCount : ℚ) - (i : ℚ)
    else 1

/-- One level built by `initializeGridLevels`. -/
def mkGridLevel (cfg : GridStrategyConfig) (st : GridState)
    (currentPrice totalWeight : ℚ) (i : Nat) (w : ℚ) : GridLevelInfo :=
  let price := st.LowerPrice + (i : ℚ) * st.GridSpacing
  { Index := i, Price := price, State := "empty",
    Side := if price > currentPrice then "sell" else "buy",
    AllocatedUSD := cfg.TotalInvestment * w / totalWeight,
    OrderID := "", OrderQuantity := 0, PositionEntry := 0, PositionSize := 0,
    UnrealizedPnL := 0 }

/-- Model of `initializeGridLevels`: fresh ladder from the stored lower bound and
spacing, capital allocated proportionally to the distribution weights. -/
def initializeGridLevels (cfg : GridStrategyConfig) (gauss : Nat → ℚ)
    (st : GridState) (currentPrice : ℚ) : List GridLevelInfo :=
  let weights := gridWeights cfg gauss
  let totalWeight := weights.sum
  (List.range cfg.GridCount.toNat).map fun i =>
    mkGridLevel cfg st currentPrice totalWeight i (weights.getD i 0)

/-- Oracle for `InitializeGrid`: the market price fetch and, when ATR bounds
are requested, the market-data fetch (`none` = fetch failed; `some atr` =
the ATR14 value, 0 when the longer-term context is absent). -/
structure InitOracle where
  marketPrice : Option ℚ
  atrData : Option ℚ
  deriving DecidableEq, Repr, Inhabited

/-- Model of `InitializeGrid`: fails only when the grid configuration is missing
(`none` argument) or the market-price fetch fails; otherwise computes
bounds, spacing `(upper-lower)/(gridCount-1)` and the fresh ladder, then
marks the grid initialized.  The `SetLeverage` call is non-fatal and has no
effect on the state. -/
def InitializeGrid (cfg? : Option GridStrategyConfig) (gauss : Nat → ℚ)
    (o : InitOracle) : Option GridState :=
  match cfg? with
  | none => none
  | some cfg =>
    match o.marketPrice with
    | none => none
    | some price =>
      let st0 := NewGridState cfg
      let bounds :=
        if cfg.UseATRBounds then
          match o.atrData with
          | none => calculateDefaultBounds cfg price
          | some atr => calculateATRBounds cfg price atr
        else (cfg.UpperPrice, cfg.LowerPrice)
      let st1 :=
        { st0 with
          UpperPrice := bounds.1
          LowerPrice := bounds.2
          GridSpacing := (bounds.1 - bounds.2) / ((cfg.GridCount : ℚ) - 1) }
      some
        { st1 with
          Levels := initializeGridLevels cfg gauss st1 price
          IsInitialized := true }

/-! ## Risk limiter and `placeGridLimitOrder` -/

/-- The quantity clamp performed by `placeGridLimitOrder`: cap the proposed
quantity at the per-level maximum (log, do not reject). -/
def clampQty (q maxQ : ℚ) : ℚ :=
  if q > maxQ then maxQ else q

/-- Per-level maximum quantity: `totalInvestment/gridCount × leverage /
price`, tightened by `allocatedUSD × leverage / price` when the level has a
positive allocation. -/
def perLevelMaxQty (cfg : GridStrategyConfig) (levelAllocatedUSD price : ℚ) :
    ℚ :=
  let maxMarginPerLevel := cfg.TotalInvestment / (cfg.GridCount : ℚ)
  let maxPositionValuePerLevel := maxMarginPerLevel * (cfg.Leverage : ℚ)
  let maxQuantityPerLevel := maxPositionValuePerLevel / price
  if levelAllocatedUSD > 0 then
    let levelMaxQuantity := levelAllocatedUSD * (cfg.Leverage : ℚ) / price
    if levelMaxQuantity < maxQuantityPerLevel then levelMaxQuantity
    else maxQuantityPerLevel
  else maxQuantityPerLevel

/-- The level-specific allocation read under the read lock: the level's
`AllocatedUSD` when the decision's index is in range, otherwise the zero
value of the local variable. -/
def levelAllocatedUSDOf (st : GridState) (idx : Int) : ℚ :=
  if 0 ≤ idx ∧ idx < (st.Levels.length : Int) then
    (levelAt st idx.toNat).AllocatedUSD
  else 0

/-- The risk-validation block of `placeGridLimitOrder`: active only when the
price and total investment are positive; clamps the quantity to the
per-level cap, then hard-rejects (`none`) when the clamped position value
still exceeds the absolute safety limit `2 × totalInvestment × leverage`. -/
def riskCappedQuantity (cfg : GridStrategyConfig) (st : GridState)
    (d : Decision) : Option ℚ :=
  if d.Price > 0 ∧ cfg.TotalInvestment > 0 then
    let maxQ := perLevelMaxQty cfg (levelAllocatedUSDOf st d.LevelIndex)
      d.Price
    let quantity := clampQty d.Quantity maxQ
    let positionValue := quantity * d.Price
    let absoluteMaxValue := cfg.TotalInvestment * (cfg.Leverage : ℚ) * 2
    if positionValue > absoluteMaxValue then none else some quantity
  else some d.Quantity

/-- Exposure contributed by resting grid orders:
Σ pending level `OrderQuantity × Price`. -/
def pendingOrdersValue (st : GridState) : ℚ :=
  (st.Levels.map fun l =>
    if l.State = "pending" then l.OrderQuantity * l.Price else 0).sum

/-- The current exchange exposure computed by `checkTotalPositionLimit`:
`|positionAmt| × markPrice` (fallback `entryPrice`) of the last matching
position; 0 when the positions fetch fails or no usable fields exist. -/
def currentPositionValue (symbol : String)
    (ps? : Option (List PositionInfo)) : ℚ :=
  match ps? with
  | none => 0
  | some ps =>
    ps.foldl (fun acc p =>
      if p.symbol = symbol then
        match p.positionAmt with
        | some size =>
          match p.markPrice with
          | some mp => |size| * mp
          | none =>
            match p.entryPrice with
            | some ep => |size| * ep
            | none => acc
        | none => acc
      else acc) 0

/-- Model of `checkTotalPositionLimit`: allow the order iff current exposure plus
pending order value plus the proposed order value stays within
`totalInvestment × leverage`.  Returns (allowed, current+pending, max). -/
def checkTotalPositionLimit (cfg : GridStrategyConfig) (st : GridState)
    (symbol : String) (additionalValue : ℚ)
    (ps? : Option (List PositionInfo)) : Bool × ℚ × ℚ :=
  let maxTotalPositionValue := cfg.TotalInvestment * (cfg.Leverage : ℚ)
  let currentValue := currentPositionValue symbol ps?
  let pendingValue := pendingOrdersValue st
  let totalAfterOrder := currentValue + pendingValue + additionalValue
  (decide (totalAfterOrder ≤ maxTotalPositionValue),
    currentValue + pendingValue, maxTotalPositionValue)

/-- The error cases `placeGridLimitOrder` can report. -/
inductive PlaceError where
  /-- position value exceeds the absolute safety limit (hard rejection) -/
  | riskViolation : PlaceError
  /-- total position value would exceed `totalInvestment × leverage` -/
  | totalLimit : PlaceError
  /-- the exchange `PlaceLimitOrder` call failed -/
  | exchange : PlaceError
  deriving DecidableEq, Repr

/-- Exchange results consumed by one `placeGridLimitOrder` run:
`positions` is what `GetPositions` returns inside
`checkTotalPositionLimit` (`none` = error, silently treated as zero
exposure there), `placeResult` what `PlaceLimitOrder` returns. -/
structure PlaceOracle where
  positions : Option (List PositionInfo)
  placeResult : Option PlaceOrderResult
  deriving DecidableEq, Repr, Inhabited

/-- Outcome of `placeGridLimitOrder`: the post state, the reported error if
any, whether a `PlaceLimitOrder` request was actually sent to the exchange,
and the quantity carried by that request. -/
structure PlaceResult where
  state : GridState
  error : Option PlaceError
  submitted : Bool
  submittedQty : ℚ
  deriving DecidableEq, Repr

/-- Model of `placeGridLimitOrder`: risk-validate and cap the quantity, check the
total position limit, submit the limit order, and on success record
`state=pending`, `OrderID`, `OrderQuantity := d.Quantity` and the
order-book entry — all only when the level index is in range. -/
def placeGridLimitOrder (cfg : GridStrategyConfig) (st : GridState)
    (d : Decision) (_side : String) (o : PlaceOracle) : PlaceResult :=
  match riskCappedQuantity cfg st d with
  | none => ⟨st, some .riskViolation, false, 0⟩
  | some quantity =>
    let orderValue := quantity * d.Price
    if (checkTotalPositionLimit cfg st d.Symbol orderValue o.positions).1 then
      match o.placeResult with
      | none => ⟨st, some .exchange, true, quantity⟩
      | some result =>
        if 0 ≤ d.LevelIndex ∧ d.LevelIndex < (st.Levels.length : Int) then
          let idx := d.LevelIndex.toNat
          ⟨{ st with
              Levels := st.Levels.set idx
                { levelAt st idx with
                  State := "pending"
                  OrderID := result.OrderID
                  OrderQuantity := d.Quantity }
              OrderBook := obInsert result.OrderID d.LevelIndex st.OrderBook },
            none, true, quantity⟩
        else ⟨st, none, true, quantity⟩
    else ⟨st, some .totalLimit, false, 0⟩

/-! ## Cancel / pause / resume / adjust -/

/-- Model of `cancelGridOrder`: cancel at the exchange (`cancelOk` is that call's
outcome; on failure the state is untouched), then reset the owning level —
looked up through the order book — and delete the book entry.  Returns the
post state and whether the operation succeeded. -/
def cancelGridOrder (st : GridState) (d : Decision) (cancelOk : Bool) :
    GridState × Bool :=
  if cancelOk then
    let st' :=
      match obLookup st.OrderBook d.OrderID with
      | none => st
      | some levelIdx =>
        let st1 :=
          if 0 ≤ levelIdx ∧ levelIdx < (st.Levels.length : Int) then
            { st with
              Levels := st.Levels.set levelIdx.toNat
                { levelAt st levelIdx.toNat with
                  State := "empty"
                  OrderID := ""
                  OrderQuantity := 0 } }
          else st
        { st1 with OrderBook := obErase d.OrderID st1.OrderBook }
    (st', true)
  else (st, false)

/-- The loop body of `cancelAllGridOrders`: reset a pending level. -/
def cancelResetLevel (l : GridLevelInfo) : GridLevelInfo :=
  if l.State = "pending" then
    { l with State := "empty", OrderID := "", OrderQuantity := 0 }
  else l

/-- Model of `cancelAllGridOrders`: cancel all open orders at the exchange (on
failure the state is untouched), then reset every pending level and clear
the order book wholesale. -/
def cancelAllGridOrders (st : GridState) (cancelOk : Bool) :
    GridState × Bool :=
  if cancelOk then
    ({ st with
        Levels := st.Levels.map cancelResetLevel
        OrderBook := [] }, true)
  else (st, false)

/-- Model of `pauseGrid`: cancel all orders (result ignored) and set the pause
flag. -/
def pauseGrid (st : GridState) (cancelOk : Bool) : GridState :=
  let st1 := (cancelAllGridOrders st cancelOk).1
  { st1 with IsPaused := true }

/-- Model of `resumeGrid`: clear the pause flag only. -/
def resumeGrid (st : GridState) : GridState :=
  { st with IsPaused := false }

/-- Model of `adjustGrid`: cancel all orders (failure ignored), fetch the market
price (`price?`; failure aborts with the state as already mutated), and
rebuild the ladder with `initializeGridLevels` — from the *stored* lower
bound and spacing, which it does not recompute. -/
def adjustGrid (cfg : GridStrategyConfig) (gauss : Nat → ℚ) (st : GridState)
    (cancelOk : Bool) (price? : Option ℚ) : GridState × Bool :=
  let st1 := (cancelAllGridOrders st cancelOk).1
  match price? with
  | none => (st1, false)
  | some price =>
    ({ st1 with Levels := initializeGridLevels cfg gauss st1 price }, true)

/-! ## Stop-loss evaluation (`checkAndExecuteStopLoss`) -/

/-- Loss percentage of a filled level: `(entry-current)/entry × 100` for a
buy-side (long) level, `(current-entry)/entry × 100` for a sell-side
(short) level. -/
def gridLossPct (side : String) (entry cur : ℚ) : ℚ :=
  if side = "buy" then (entry - cur) / entry * 100
  else (cur - entry) / entry * 100

/-- Stop-loss trigger condition for one level: filled, with a positive
recorded entry, and loss percentage at least the configured stop-loss
percentage. -/
def slTrigger (cfg : GridStrategyConfig) (cur : ℚ) (l : GridLevelInfo) :
    Prop :=
  l.State = "filled" ∧ 0 < l.PositionEntry ∧
    cfg.StopLossPct ≤ gridLossPct l.Side l.PositionEntry cur

instance (cfg : GridStrategyConfig) (cur : ℚ) (l : GridLevelInfo) :
    Decidable (slTrigger cfg cur l) := by
  unfold slTrigger; infer_instance

/-- One close request issued by the stop-loss loop (trader `CloseLong` /
`CloseShort`), tagged with the level index it was issued for. -/
structure CloseCall where
  levelIndex : Nat
  long : Bool
  symbol : String
  qty : ℚ
  deriving DecidableEq, Repr

/-- The close call issued by the stop-loss loop at level `i`, when that
level triggers. -/
def slCloseCall (cfg : GridStrategyConfig) (cur : ℚ) (st : GridState)
    (i : Nat) : Option CloseCall :=
  if slTrigger cfg cur (levelAt st i) then
    some ⟨i, (levelAt st i).Side = "buy", cfg.Symbol,
      (levelAt st i).PositionSize⟩
  else none

/-- The stop-loss loop body at level `i`: the level becomes `stopped` with
the booked loss when it triggers and the close succeeds, otherwise it is
left unchanged. -/
def slNewLevel (cfg : GridStrategyConfig) (cur : ℚ) (closeOk : Nat → Bool)
    (st : GridState) (i : Nat) : GridLevelInfo :=
  if slTrigger cfg cur (levelAt st i) ∧ closeOk i then
    { levelAt st i with
      State := "stopped"
      UnrealizedPnL :=
        -(gridLossPct (levelAt st i).Side (levelAt st i).PositionEntry cur) *
          (levelAt st i).AllocatedUSD / 100 }
  else levelAt st i

/-- Model of `checkAndExecuteStopLoss`: runs only with a configured stop-loss
percentage > 0 and a successful market-price fetch (`price?`).  For each
triggered level a close is issued (long-close for buy side, short-close for
sell side, sized at `PositionSize`); when the close succeeds (`closeOk` at
that index) the level becomes `stopped` with
`UnrealizedPnL = -loss% × AllocatedUSD / 100` and `TotalTrades` is
incremented, otherwise the level is left as it was.  Returns the post state
and the list of close calls issued. -/
def checkAndExecuteStopLoss (cfg : GridStrategyConfig) (st : GridState)
    (price? : Option ℚ) (closeOk : Nat → Bool) :
    GridState × List CloseCall :=
  if cfg.StopLossPct ≤ 0 then (st, [])
  else
    match price? with
    | none => (st, [])
    | some cur =>
      let n := st.Levels.length
      let calls := (List.range n).filterMap (slCloseCall cfg cur st)
      let newLevels := (List.range n).map (slNewLevel cfg cur closeOk st)
      let delta := (List.range n).countP fun i =>
        decide (slTrigger cfg cur (levelAt st i)) && closeOk i
      ({ st with Levels := newLevels, TotalTrades := st.TotalTrades + delta },
        calls)

/-! ## Reconciliation (`syncGridState`) -/

/-- Fill-detection condition: a pending level with a non-empty order id that
is no longer among the exchange's open orders. -/
def fillCond (ids : List String) (l : GridLevelInfo) : Prop :=
  l.State = "pending" ∧ l.OrderID ≠ "" ∧ l.OrderID ∉ ids

instance (ids : List String) (l : GridLevelInfo) :
    Decidable (fillCond ids l) := by
  unfold fillCond; infer_instance

/-- The fill-detection pass of `syncGridState`: each pending level whose
order disappeared is optimistically marked `filled` with
`PositionEntry := Price`, incrementing `TotalTrades` once per such level.
The level's `OrderID` and the order-book entry are left in place. -/
def syncFillDetect (st : GridState) (ids : List String) : GridState :=
  { st with
    Levels := st.Levels.map fun l =>
      if fillCond ids l then
        { l with State := "filled", PositionEntry := l.Price }
      else l
    TotalTrades := st.TotalTrades +
      st.Levels.countP fun l => decide (fillCond ids l) }

/-- The position pass of `syncGridState`: for each exchange position
matching the symbol that carries an `unRealizedProfit` field, overwrite
every filled level's `UnrealizedPnL` with the equal share
`pnl / TotalTrades`. -/
def distributePnL (st : GridState) (symbol : String)
    (ps : List PositionInfo) : GridState :=
  ps.foldl (fun acc p =>
    if p.symbol = symbol then
      match p.unRealizedProfit with
      | some pnl =>
        { acc with
          Levels := acc.Levels.map fun l =>
            if l.State = "filled" then
              { l with UnrealizedPnL := pnl / (acc.TotalTrades : ℚ) }
            else l }
      | none => acc
    else acc) st

/-- Exchange results consumed by one `syncGridState` run: the open-orders
fetch (`none` = error), the positions fetch (`none` = error), and the
market price / close outcomes used by the stop-loss check it invokes. -/
structure SyncOracle where
  openOrders : Option (List String)
  positions : Option (List PositionInfo)
  stopPrice : Option ℚ
  closeOk : Nat → Bool

/-- Model of `syncGridState`: when the open-orders fetch fails, return with no state
change; otherwise run fill detection; when the positions fetch then fails,
return with fill detection already applied; otherwise distribute unrealized
P&L and run the stop-loss check.  Never returns an error. -/
def syncGridState (cfg : GridStrategyConfig) (st : GridState)
    (o : SyncOracle) : GridState :=
  match o.openOrders with
  | none => st
  | some ids =>
    let st1 := syncFillDetect st ids
    match o.positions with
    | none => st1
    | some ps =>
      let st2 := distributePnL st1 cfg.Symbol ps
      (checkAndExecuteStopLoss cfg st2 o.stopPrice o.closeOk).1

/-! ## Decision executor (`executeGridDecision`) -/

/-- Exchange results consumed by one `executeGridDecision` run. -/
structure ExecOracle where
  place : PlaceOracle
  cancelOk : Bool
  adjustPrice : Option ℚ
  closeOk : Bool

/-- Externally visible effects of one executed decision: the close
delegations (symbol and quantity passed to the trader's `CloseLong` /
`CloseShort`), whether a limit order was submitted, and whether the
execution reported an error. -/
structure ExecEffect where
  closeLongCall : Option (String × ℚ)
  closeShortCall : Option (String × ℚ)
  orderSubmitted : Bool
  err : Bool
  deriving DecidableEq, Repr

/-- The no-effect value. -/
def ExecEffect.nil : ExecEffect :=
  ⟨none, none, false, false⟩

/-- Model of `executeGridDecision`: dispatch one decision by its `Action` string.
`close_long`/`close_short` delegate directly to the trader and touch no
grid state; unknown actions are a logged no-op. -/
def executeGridDecision (cfg : GridStrategyConfig) (gauss : Nat → ℚ)
    (st : GridState) (d : Decision) (o : ExecOracle) :
    GridState × ExecEffect :=
  if d.Action = "place_buy_limit" then
    let r := placeGridLimitOrder cfg st d "BUY" o.place
    (r.state, { ExecEffect.nil with
      orderSubmitted := r.submitted, err := r.error.isSome })
  else if d.Action = "place_sell_limit" then
    let r := placeGridLimitOrder cfg st d "SELL" o.place
    (r.state, { ExecEffect.nil with
      orderSubmitted := r.submitted, err := r.error.isSome })
  else if d.Action = "cancel_order" then
    let r := cancelGridOrder st d o.cancelOk
    (r.1, { ExecEffect.nil with err := !r.2 })
  else if d.Action = "cancel_all_orders" then
    let r := cancelAllGridOrders st o.cancelOk
    (r.1, { ExecEffect.nil with err := !r.2 })
  else if d.Action = "pause_grid" then (pauseGrid st o.cancelOk,
    ExecEffect.nil)
  else if d.Action = "resume_grid" then (resumeGrid st, ExecEffect.nil)
  else if d.Action = "adjust_grid" then
    let r := adjustGrid cfg gauss st o.cancelOk o.adjustPrice
    (r.1, { ExecEffect.nil with err := !r.2 })
  else if d.Action = "hold" then (st, ExecEffect.nil)
  else if d.Action = "close_long" then
    (st, { ExecEffect.nil with
      closeLongCall := some (d.Symbol, d.Quantity), err := !o.closeOk })
  else if d.Action = "close_short" then
    (st, { ExecEffect.nil with
      closeShortCall := some (d.Symbol, d.Quantity), err := !o.closeOk })
  else (st, ExecEffect.nil)

/-! ## The level / order-book invariant -/

/-- The bookkeeping invariant over a ladder and an order book: each level's
`OrderID` is non-empty exactly when the level is `pending`; every order-book
entry points at a pending level carrying that order id; and every pending
level's order id is in the book, bound to that level's index. -/
def gridInvP (ls : List GridLevelInfo) (ob : List (String × Int)) : Prop :=
  (∀ i < ls.length,
    ((ls.getD i default).OrderID ≠ "" ↔ (ls.getD i default).State = "pending")) ∧
  (∀ p ∈ ob, ∃ i < ls.length, p.2 = (i : Int) ∧
    (ls.getD i default).State = "pending" ∧
    (ls.getD i default).OrderID = p.1) ∧
  (∀ i < ls.length, (ls.getD i default).State = "pending" →
    obLookup ob (ls.getD i default).OrderID = some (i : Int))

/-- The invariant claimed for `GridState`: `orderID ≠ "" ⟺ state = pending`
for every level, and the order book mirrors exactly the pending levels. -/
def gridInv (st : GridState) : Prop :=
  gridInvP st.Levels st.OrderBook

instance (ls : List GridLevelInfo) (ob : List (String × Int)) :
    Decidable (gridInvP ls ob) := by
  unfold gridInvP; infer_instance

instance (st : GridState) : Decidable (gridInv st) := by
  unfold gridInv; infer_instance

/-! ## Helper lemmas: order-book association list -/

lemma obLookup_mem {ob : List (String × Int)} {k : String} {v : Int}
    (h : obLookup ob k = some v) : (k, v) ∈ ob := by
  induction ob with
  | nil => simp [obLookup] at h
  | cons p rest ih =>
    by_cases hk : p.1 = k
    · simp only [obLookup, if_pos hk] at h
      injection h with h2
      rw [List.mem_cons]
      left
      rw [← hk, ← h2]
    · simp only [obLookup, if_neg hk] at h
      exact List.mem_cons_of_mem _ (ih h)

lemma mem_obErase {p : String × Int} {k : String} {ob : List (String × Int)} :
    p ∈ obErase k ob ↔ p ∈ ob ∧ p.1 ≠ k := by
  induction ob with
  | nil => simp [obErase]
  | cons q rest ih =>
    by_cases hk : q.1 = k
    · simp only [obErase, if_pos hk, ih, List.mem_cons]
      constructor
      · rintro ⟨hm, hne⟩
        exact ⟨Or.inr hm, hne⟩
      · rintro ⟨rfl | hm, hne⟩
        · exact absurd hk hne
        · exact ⟨hm, hne⟩
    · simp only [obErase, if_neg hk, List.mem_cons, ih]
      constructor
      · rintro (rfl | ⟨hm, hne⟩)
        · exact ⟨Or.inl rfl, hk⟩
        · exact ⟨Or.inr hm, hne⟩
      · rintro ⟨rfl | hm, hne⟩
        · exact Or.inl rfl
        · exact Or.inr ⟨hm, hne⟩

lemma obLookup_obErase_ne {k k' : String} {ob : List (String × Int)}
    (h : k' ≠ k) : obLookup (obErase k ob) k' = obLookup ob k' := by
  induction ob with
  | nil => simp [obErase]
  | cons q rest ih =>
    by_cases hk : q.1 = k
    · have : q.1 ≠ k' := by rw [hk]; exact fun e => h e.symm
      simp [obErase, obLookup, if_pos hk, if_neg this, ih]
    · by_cases hk' : q.1 = k'
      · simp [obErase, obLookup, if_neg hk, if_pos hk']
      · simp [obErase, obLookup, if_neg hk, if_neg hk', ih]

lemma obLookup_obInsert_self (k : String) (v : Int)
    (ob : List (String × Int)) : obLookup (obInsert k v ob) k = some v := by
  simp [obInsert, obLookup]

lemma obLookup_obInsert_ne {k k' : String} (v : Int)
    {ob : List (String × Int)} (h : k' ≠ k) :
    obLookup (obInsert k v ob) k' = obLookup ob k' := by
  have : k ≠ k' := fun e => h e.symm
  simp [obInsert, obLookup, if_neg this, obLookup_obErase_ne h]

lemma mem_obInsert {p : String × Int} {k : String} {v : Int}
    {ob : List (String × Int)} :
    p ∈ obInsert k v ob ↔ p = (k, v) ∨ (p ∈ ob ∧ p.1 ≠ k) := by
  simp [obInsert, List.mem_cons, mem_obErase]

/-! ## Helper lemmas: list indexing -/

lemma getD_set_self {α : Type} [Inhabited α] (l : List α) {i : Nat}
    (x d : α) (h : i < l.length) : (l.set i x).getD i d = x := by
  simp [List.getD_eq_getElem?_getD, List.getElem?_set_self, h]

lemma getD_set_ne {α : Type} [Inhabited α] (l : List α) {i j : Nat}
    (x d : α) (h : j ≠ i) : (l.set i x).getD j d = l.getD j d := by
  simp [List.getD_eq_getElem?_getD, List.getElem?_set, Ne.symm h]

lemma getD_map_range {α : Type} (f : Nat → α) {n i : Nat} (d : α)
    (h : i < n) : ((List.range n).map f).getD i d = f i := by
  simp [List.getD_eq_getElem?_getD, List.getElem?_map, List.getElem?_range, h]

lemma getD_map_lt {α β : Type} (f : α → β) (l : List α) {i : Nat} (d : β)
    (d' : α) (h : i < l.length) : (l.map f).getD i d = f (l.getD i d') := by
  simp [List.getD_eq_getElem?_getD, List.getElem?_map,
    List.getElem?_eq_getElem, h]

lemma sum_map_mul_left_rat (c : ℚ) (l : List ℚ) :
    (l.map fun x => c * x).sum = c * l.sum := by
  induction l with
  | nil => simp
  | cons a t ih => simp [ih, mul_add]

/-! ## Invariant preservation lemmas -/

lemma gridInvP_congr {ls ls' : List GridLevelInfo} {ob : List (String × Int)}
    (hlen : ls'.length = ls.length)
    (hstate : ∀ i < ls.length,
      ((ls'.getD i default).State = "pending" ↔
        (ls.getD i default).State = "pending"))
    (hoid : ∀ i < ls.length,
      (ls'.getD i default).OrderID = (ls.getD i default).OrderID)
    (h : gridInvP ls ob) : gridInvP ls' ob := by
  obtain ⟨h1, h2, h3⟩ := h
  refine ⟨?_, ?_, ?_⟩
  · intro i hi
    rw [hlen] at hi
    rw [hoid i hi, hstate i hi]
    exact h1 i hi
  · intro p hp
    obtain ⟨i, hi, hp2, hpend, hpoid⟩ := h2 p hp
    exact ⟨i, hlen ▸ hi, hp2, (hstate i hi).mpr hpend,
      (hoid i hi).trans hpoid⟩
  · intro i hi hpend'
    rw [hlen] at hi
    rw [hoid i hi]
    exact h3 i hi ((hstate i hi).mp hpend')

lemma gridInv_cancelAllGridOrders (st : GridState) (ok : Bool)
    (h : gridInv st) : gridInv (cancelAllGridOrders st ok).1 := by
  cases ok with
  | false => simpa [cancelAllGridOrders] using h
  | true =>
    obtain ⟨h1, _, _⟩ := h
    have hL : (cancelAllGridOrders st true).1.Levels =
        st.Levels.map cancelResetLevel := rfl
    have hB : (cancelAllGridOrders st true).1.OrderBook = [] := rfl
    show gridInvP (cancelAllGridOrders st true).1.Levels
      (cancelAllGridOrders st true).1.OrderBook
    rw [hL, hB]
    refine ⟨?_, ?_, ?_⟩
    · intro i hi
      simp only [List.length_map] at hi
      rw [getD_map_lt _ _ default default hi]
      unfold cancelResetLevel
      by_cases hp : (st.Levels.getD i default).State = "pending"
      · rw [if_pos hp]
        simp
      · rw [if_neg hp]
        exact h1 i hi
    · intro p hp
      simp at hp
    · intro i hi hpend
      simp only [List.length_map] at hi
      rw [getD_map_lt _ _ default default hi] at hpend
      unfold cancelResetLevel at hpend
      by_cases hp : (st.Levels.getD i default).State = "pending"
      · rw [if_pos hp] at hpend
        simp at hpend
      · rw [if_neg hp] at hpend
        exact absurd hpend hp

lemma gridInv_pauseGrid (st : GridState) (ok : Bool) (h : gridInv st) :
    gridInv (pauseGrid st ok) := by
  have := gridInv_cancelAllGridOrders st ok h
  simpa [pauseGrid, gridInv] using this

lemma gridInv_resumeGrid (st : GridState) (h : gridInv st) :
    gridInv (resumeGrid st) := by
  simpa [resumeGrid, gridInv] using h

lemma gridInv_checkAndExecuteStopLoss (cfg : GridStrategyConfig)
    (st : GridState) (price? : Option ℚ) (closeOk : Nat → Bool)
    (h : gridInv st) :
    gridInv (checkAndExecuteStopLoss cfg st price? closeOk).1 := by
  unfold checkAndExecuteStopLoss
  by_cases hsl : cfg.StopLossPct ≤ 0
  · simpa [hsl] using h
  · cases price? with
    | none => simpa [hsl] using h
    | some cur =>
      simp only [if_neg hsl]
      refine gridInvP_congr ?_ ?_ ?_ h
      · simp
      · intro i hi
        rw [getD_map_range _ _ hi]
        unfold slNewLevel
        by_cases ht : slTrigger cfg cur (levelAt st i) ∧ closeOk i = true
        · have hfil : (st.Levels.getD i default).State = "filled" := ht.1.1
          rw [if_pos ht, hfil]
          simp
        · rw [if_neg ht]
          exact Iff.rfl
      · intro i hi
        rw [getD_map_range _ _ hi]
        unfold slNewLevel
        by_cases ht : slTrigger cfg cur (levelAt st i) ∧ closeOk i = true
        · rw [if_pos ht]
          rfl
        · rw [if_neg ht]
          rfl

lemma initializeGridLevels_fresh (cfg : GridStrategyConfig)
    (gauss : Nat → ℚ) (st : GridState) (price : ℚ) :
    ∀ i < (initializeGridLevels cfg gauss st price).length,
      ((initializeGridLevels cfg gauss st price).getD i default).State =
        "empty" ∧
      ((initializeGridLevels cfg gauss st price).getD i default).OrderID =
        "" := by
  intro i hi
  unfold initializeGridLevels at hi ⊢
  simp only [List.length_map, List.length_range] at hi
  rw [getD_map_range _ _ hi]
  exact ⟨rfl, rfl⟩

lemma gridInvP_fresh (ls : List GridLevelInfo)
    (hfresh : ∀ i < ls.length, (ls.getD i default).State = "empty" ∧
      (ls.getD i default).OrderID = "") :
    gridInvP ls [] := by
  refine ⟨?_, ?_, ?_⟩
  · intro i hi
    obtain ⟨hs, ho⟩ := hfresh i hi
    rw [hs, ho]
    simp
  · intro p hp
    simp at hp
  · intro i hi hpend
    rw [(hfresh i hi).1] at hpend
    simp at hpend

lemma gridInv_adjustGrid (cfg : GridStrategyConfig) (gauss : Nat → ℚ)
    (st : GridState) (price? : Option ℚ) (h : gridInv st) :
    gridInv (adjustGrid cfg gauss st true price?).1 := by
  have hca := gridInv_cancelAllGridOrders st true h
  unfold adjustGrid
  cases price? with
  | none => simpa using hca
  | some price =>
    simp only [gridInv]
    have hob : (cancelAllGridOrders st true).1.OrderBook = [] := by
      simp [cancelAllGridOrders]
    rw [hob]
    exact gridInvP_fresh _ (initializeGridLevels_fresh cfg gauss _ price)

lemma gridInvP_cancel (ls : List GridLevelInfo) (ob : List (String × Int))
    (oid : String) (i : Nat) (hi : i < ls.length) (h : gridInvP ls ob)
    (hoid : (ls.getD i default).OrderID = oid)
    (hlk : obLookup ob oid = some (i : Int)) :
    gridInvP
      (ls.set i
        { ls.getD i default with
          State := "empty", OrderID := "", OrderQuantity := 0 })
      (obErase oid ob) := by
  obtain ⟨h1, h2, h3⟩ := h
  refine ⟨?_, ?_, ?_⟩
  · intro j hj
    rw [List.length_set] at hj
    by_cases hji : j = i
    · subst hji
      rw [getD_set_self _ _ _ hj]
      simp
    · rw [getD_set_ne _ _ _ hji]
      exact h1 j hj
  · intro p hp
    obtain ⟨hpob, hpne⟩ := mem_obErase.mp hp
    obtain ⟨j, hj, hpj, hpendj, hoidj⟩ := h2 p hpob
    have hji : j ≠ i := by
      intro e
      subst e
      exact hpne (hoidj ▸ hoid)
    refine ⟨j, ?_, hpj, ?_, ?_⟩
    · simpa using hj
    · rw [getD_set_ne _ _ _ hji]
      exact hpendj
    · rw [getD_set_ne _ _ _ hji]
      exact hoidj
  · intro j hj hpendj
    rw [List.length_set] at hj
    by_cases hji : j = i
    · subst hji
      rw [getD_set_self _ _ _ hj] at hpendj
      simp at hpendj
    · rw [getD_set_ne _ _ _ hji] at hpendj ⊢
      have hlkj := h3 j hj hpendj
      have hne : (ls.getD j default).OrderID ≠ oid := by
        intro e
        rw [e, hlk] at hlkj
        have : (i : Int) = (j : Int) := by injection hlkj
        exact hji (by exact_mod_cast this.symm)
      rw [obLookup_obErase_ne hne]
      exact hlkj

lemma gridInv_cancelGridOrder (st : GridState) (d : Decision) (ok : Bool)
    (h : gridInv st) : gridInv (cancelGridOrder st d ok).1 := by
  cases ok with
  | false => simpa [cancelGridOrder] using h
  | true =>
    cases hlk : obLookup st.OrderBook d.OrderID with
    | none =>
      have key : (cancelGridOrder st d true).1 = st := by
        simp [cancelGridOrder, hlk]
      rw [key]
      exact h
    | some levelIdx =>
      obtain ⟨i, hi, hpi, hpend, hpoid⟩ := h.2.1 _ (obLookup_mem hlk)
      simp only at hpi
      have hcond : 0 ≤ levelIdx ∧ levelIdx < (st.Levels.length : Int) := by
        subst hpi
        exact ⟨Int.natCast_nonneg i, by exact_mod_cast hi⟩
      have htn : levelIdx.toNat = i := by
        subst hpi
        simp
      have key : (cancelGridOrder st d true).1 =
          { st with
            Levels := st.Levels.set i
              { st.Levels.getD i default with
                State := "empty", OrderID := "", OrderQuantity := 0 }
            OrderBook := obErase d.OrderID st.OrderBook } := by
        simp only [cancelGridOrder, hlk, if_pos hcond, htn, if_true]
        rfl
      rw [key]
      show gridInvP _ _
      exact gridInvP_cancel st.Levels st.OrderBook d.OrderID i hi h hpoid
        (hpi ▸ hlk)

lemma gridInvP_place (ls : List GridLevelInfo) (ob : List (String × Int))
    (oid : String) (idx : Int) (q : ℚ) (h0 : 0 ≤ idx)
    (hi : idx < (ls.length : Int)) (h : gridInvP ls ob) (hoidne : oid ≠ "")
    (hfresh : obLookup ob oid = none)
    (hnp : (ls.getD idx.toNat default).State ≠ "pending") :
    gridInvP
      (ls.set idx.toNat
        { ls.getD idx.toNat default with
          State := "pending", OrderID := oid, OrderQuantity := q })
      (obInsert oid idx ob) := by
  obtain ⟨h1, h2, h3⟩ := h
  have hcast : (idx.toNat : Int) = idx := Int.toNat_of_nonneg h0
  have hilt : idx.toNat < ls.length := by omega
  refine ⟨?_, ?_, ?_⟩
  · intro j hj
    rw [List.length_set] at hj
    by_cases hji : j = idx.toNat
    · subst hji
      rw [getD_set_self _ _ _ hj]
      simpa using hoidne
    · rw [getD_set_ne _ _ _ hji]
      exact h1 j hj
  · intro p hp
    rcases mem_obInsert.mp hp with hpe | ⟨hpob, hpne⟩
    · subst hpe
      refine ⟨idx.toNat, ?_, by simpa using hcast.symm, ?_, ?_⟩
      · simpa using hilt
      · rw [getD_set_self _ _ _ hilt]
      · rw [getD_set_self _ _ _ hilt]
    · obtain ⟨j, hj, hpj, hpendj, hoidj⟩ := h2 p hpob
      have hji : j ≠ idx.toNat := by
        intro e
        subst e
        exact hnp hpendj
      refine ⟨j, by simpa using hj, hpj, ?_, ?_⟩
      · rw [getD_set_ne _ _ _ hji]
        exact hpendj
      · rw [getD_set_ne _ _ _ hji]
        exact hoidj
  · intro j hj hpendj
    rw [List.length_set] at hj
    by_cases hji : j = idx.toNat
    · subst hji
      rw [getD_set_self _ _ _ hj]
      rw [show ((idx.toNat : Nat) : Int) = idx from hcast]
      exact obLookup_obInsert_self oid idx ob
    · rw [getD_set_ne _ _ _ hji] at hpendj ⊢
      have hlkj := h3 j hj hpendj
      have hne : (ls.getD j default).OrderID ≠ oid := by
        intro e
        rw [e, hfresh] at hlkj
        exact Option.noConfusion hlkj
      rw [obLookup_obInsert_ne _ hne]
      exact hlkj

lemma gridInv_placeGridLimitOrder (cfg : GridStrategyConfig)
    (st : GridState) (d : Decision) (side : String) (o : PlaceOracle)
    (h : gridInv st)
    (hres : ∀ res, o.placeResult = some res →
      res.OrderID ≠ "" ∧ obLookup st.OrderBook res.OrderID = none)
    (hnp : 0 ≤ d.LevelIndex → d.LevelIndex < (st.Levels.length : Int) →
      (levelAt st d.LevelIndex.toNat).State ≠ "pending") :
    gridInv (placeGridLimitOrder cfg st d side o).state := by
  unfold placeGridLimitOrder
  cases hq : riskCappedQuantity cfg st d with
  | none => exact h
  | some quantity =>
    dsimp only
    by_cases hlim : (checkTotalPositionLimit cfg st d.Symbol
        (quantity * d.Price) o.positions).1 = true
    · rw [if_pos hlim]
      cases hpr : o.placeResult with
      | none => exact h
      | some result =>
        obtain ⟨hne, hfresh⟩ := hres result hpr
        dsimp only
        by_cases hcond : 0 ≤ d.LevelIndex ∧
            d.LevelIndex < (st.Levels.length : Int)
        · rw [if_pos hcond]
          exact gridInvP_place st.Levels st.OrderBook result.OrderID
            d.LevelIndex d.Quantity hcond.1 hcond.2 h hne hfresh
            (hnp hcond.1 hcond.2)
        · rw [if_neg hcond]
          exact h
    · rw [if_neg hlim]
      exact h

lemma map_getD_range {α : Type} [Inhabited α] (l : List α) (d : α) :
    (List.range l.length).map (fun i => l.getD i d) = l := by
  induction l with
  | nil => simp
  | cons a t ih =>
    rw [List.length_cons, List.range_succ_eq_map, List.map_cons,
      List.map_map]
    have h0 : (a :: t).getD 0 d = a := rfl
    have hs : ((fun i => (a :: t).getD i d) ∘ Nat.succ) =
        fun i => t.getD i d := by
      funext i
      rfl
    rw [h0, hs, ih]

/-! ## Concrete fixtures used in closed evaluations -/

/-- A sample grid configuration: 1000 USD over 10 levels at 1x leverage,
uniform distribution, 5% stop loss, manual bounds 90–110. -/
def cfgA : GridStrategyConfig :=
  { Symbol := "BTCUSDT", GridCount := 10, TotalInvestment := 1000,
    Leverage := 1, Distribution := "uniform", StopLossPct := 5,
    UpperPrice := 110, LowerPrice := 90, UseATRBounds := false,
    ATRMultiplier := 2, UseMakerOnly := true }

/-- A configuration with a single level (levelCount below the spec's
minimum of 2). -/
def cfgOne : GridStrategyConfig :=
  { cfgA with GridCount := 1 }

/-- A configuration with negative leverage, exercising the absolute safety
branch. -/
def cfgNegLev : GridStrategyConfig :=
  { Symbol := "X", GridCount := 1, TotalInvestment := 10, Leverage := -1,
    Distribution := "uniform", StopLossPct := 0, UpperPrice := 0,
    LowerPrice := 0, UseATRBounds := false, ATRMultiplier := 0,
    UseMakerOnly := false }

/-- A stand-in for the gaussian weight function (any positive function has
the one property the proofs use). -/
def gaussOne : Nat → ℚ := fun _ => 1

/-- An empty level at price 10 with 100 USD allocated. -/
def lvlEmptyA : GridLevelInfo :=
  { Index := 0, Price := 10, State := "empty", Side := "buy",
    AllocatedUSD := 100, OrderID := "", OrderQuantity := 0,
    PositionEntry := 0, PositionSize := 0, UnrealizedPnL := 0 }

/-- A pending level resting with order id A. -/
def lvlPendingA : GridLevelInfo :=
  { Index := 0, Price := 10, State := "pending", Side := "buy",
    AllocatedUSD := 100, OrderID := "A", OrderQuantity := 1,
    PositionEntry := 0, PositionSize := 0, UnrealizedPnL := 0 }

/-- A buy-side filled level with entry price 100. -/
def lvlFilledBuy : GridLevelInfo :=
  { Index := 0, Price := 100, State := "filled", Side := "buy",
    AllocatedUSD := 100, OrderID := "", OrderQuantity := 0,
    PositionEntry := 100, PositionSize := 1, UnrealizedPnL := 0 }

/-- State with one empty level and an empty order book. -/
def stEmptyA : GridState :=
  { Config := cfgA, Levels := [lvlEmptyA], UpperPrice := 110,
    LowerPrice := 90, GridSpacing := 5, IsPaused := false,
    IsInitialized := true, TotalProfit := 0, TotalTrades := 0,
    WinningTrades := 0, MaxDrawdown := 0, PeakEquity := 0, DailyPnL := 0,
    OrderBook := [] }

/-- State with one pending level (order id A) mirrored in the order book. -/
def stPendingA : GridState :=
  { Config := cfgA, Levels := [lvlPendingA], UpperPrice := 110,
    LowerPrice := 90, GridSpacing := 5, IsPaused := false,
    IsInitialized := true, TotalProfit := 0, TotalTrades := 0,
    WinningTrades := 0, MaxDrawdown := 0, PeakEquity := 0, DailyPnL := 0,
    OrderBook := [("A", 0)] }

/-- State with one buy-side filled level. -/
def stFilled : GridState :=
  { Config := cfgA, Levels := [lvlFilledBuy], UpperPrice := 110,
    LowerPrice := 90, GridSpacing := 5, IsPaused := false,
    IsInitialized := true, TotalProfit := 0, TotalTrades := 1,
    WinningTrades := 0, MaxDrawdown := 0, PeakEquity := 0, DailyPnL := 0,
    OrderBook := [] }

/-- State whose stored spacing (7) disagrees with the bounds formula. -/
def stSpacing7 : GridState :=
  { stPendingA with GridSpacing := 7 }

/-- A buy-limit decision requesting quantity 300 at price 10 on level 0
(position value 3000, above the absolute safety limit 2000 of `cfgA`). -/
def dPlace300 : Decision :=
  { Action := "place_buy_limit", Symbol := "BTCUSDT", Quantity := 300,
    Price := 10, LevelIndex := 0, OrderID := "", Reasoning := "" }

/-- A buy-limit decision whose level index 7 is out of range for a
one-level ladder. -/
def dOutOfRange : Decision :=
  { Action := "place_buy_limit", Symbol := "BTCUSDT", Quantity := 5,
    Price := 10, LevelIndex := 7, OrderID := "", Reasoning := "" }

/-- A small buy-limit decision against `cfgNegLev`. -/
def dSmall : Decision :=
  { Action := "place_buy_limit", Symbol := "X", Quantity := 5, Price := 1,
    LevelIndex := 0, OrderID := "", Reasoning := "" }

/-- A close-long decision. -/
def dCloseLong : Decision :=
  { Action := "close_long", Symbol := "BTCUSDT", Quantity := 2, Price := 0,
    LevelIndex := 0, OrderID := "", Reasoning := "" }

/-- Place oracle: no exchange position, order accepted with id OID1. -/
def oPlaceOK : PlaceOracle :=
  { positions := some [], placeResult := some { OrderID := "OID1" } }

/-- Sync oracle: open-orders fetch succeeds with no open orders, the
positions fetch fails. -/
def oSyncPosFail : SyncOracle :=
  { openOrders := some [], positions := none, stopPrice := none,
    closeOk := fun _ => true }

/-- Init oracle: market price 100, no market data. -/
def oInit100 : InitOracle :=
  { marketPrice := some 100, atrData := none }

/-- Executor oracle used in closed evaluations. -/
def oExecA : ExecOracle :=
  { place := oPlaceOK, cancelOk := true, adjustPrice := some 100,
    closeOk := true }

/-! ## C1: absolute safety check -/

/-- C1 (amended): the absolute safety check of `placeGridLimitOrder` runs
after per-level capping.  Whenever the price and total investment are
positive and the *capped* quantity times the price still exceeds
`2 × totalInvestment × leverage`, the order is hard-rejected with a
`riskViolation` error, no request is sent to the exchange, and the grid
state is returned unchanged. -/
theorem C1_risk_reject_capped (cfg : GridStrategyConfig) (st : GridState)
    (d : Decision) (side : String) (o : PlaceOracle)
    (hp : d.Price > 0) (hti : cfg.TotalInvestment > 0)
    (hv : clampQty d.Quantity
        (perLevelMaxQty cfg (levelAllocatedUSDOf st d.LevelIndex) d.Price) *
        d.Price > cfg.TotalInvestment * (cfg.Leverage : ℚ) * 2) :
    placeGridLimitOrder cfg st d side o =
      { state := st, error := some PlaceError.riskViolation,
        submitted := false, submittedQty := 0 } := by
  have hrc : riskCappedQuantity cfg st d = none := by
    unfold riskCappedQuantity
    rw [if_pos ⟨hp, hti⟩]
    dsimp only
    rw [if_pos hv]
  unfold placeGridLimitOrder
  rw [hrc]

/-- C1 counterexample: a requested quantity whose position value (3000)
exceeds the absolute limit (2000) is clamped to the per-level cap and the
order goes through — no `RiskViolation`, and the grid state changes. -/
theorem C1_counterexample :
    dPlace300.Quantity * dPlace300.Price >
      cfgA.TotalInvestment * (cfgA.Leverage : ℚ) * 2 ∧
    (placeGridLimitOrder cfgA stEmptyA dPlace300 "BUY" oPlaceOK).error =
      none ∧
    (placeGridLimitOrder cfgA stEmptyA dPlace300 "BUY" oPlaceOK).state ≠
      stEmptyA := by decide

/-- C1 witness: a configuration (negative leverage) on which the capped
quantity still violates the absolute limit, so the hard rejection fires. -/
theorem C1_risk_reject_capped_witness :
    dSmall.Price > 0 ∧ cfgNegLev.TotalInvestment > 0 ∧
    placeGridLimitOrder cfgNegLev (NewGridState cfgNegLev) dSmall "BUY"
        oPlaceOK =
      { state := NewGridState cfgNegLev,
        error := some PlaceError.riskViolation, submitted := false,
        submittedQty := 0 } :=
  ⟨by decide, by decide,
    C1_risk_reject_capped cfgNegLev (NewGridState cfgNegLev) dSmall "BUY"
      oPlaceOK (by decide) (by decide) (by decide)⟩

/-! ## C3: reconciliation fetch failures -/

/-- C3 (amended): when the open-orders fetch fails, `syncGridState` leaves
the state completely unchanged; when the open-orders fetch succeeds but the
positions fetch fails, the pass stops after fill detection — the
pending→filled transitions and `TotalTrades` increments of
`syncFillDetect` are already applied, only P&L distribution and the
stop-loss check are skipped.  Neither failure is fatal: the function always
returns a state. -/
theorem C3_sync_fetch_failure (cfg : GridStrategyConfig) (st : GridState)
    (o : SyncOracle) :
    (o.openOrders = none → syncGridState cfg st o = st) ∧
    (∀ ids, o.openOrders = some ids → o.positions = none →
      syncGridState cfg st o = syncFillDetect st ids) := by
  constructor
  · intro h
    unfold syncGridState
    rw [h]
  · intro ids ho hp
    unfold syncGridState
    rw [ho]
    dsimp only
    rw [hp]

/-- C3 counterexample: with the positions fetch failing, the reconciliation
pass still mutates the grid state (a pending level is marked filled and
`TotalTrades` is incremented), contradicting "GridState is left completely
unchanged". -/
theorem C3_counterexample :
    oSyncPosFail.positions = none ∧
    syncGridState cfgA stPendingA oSyncPosFail ≠ stPendingA := by decide

/-- C3 witness: concrete instance of the amended reconciliation-failure
behaviour. -/
theorem C3_sync_fetch_failure_witness :
    syncGridState cfgA stPendingA oSyncPosFail =
      syncFillDetect stPendingA [] :=
  (C3_sync_fetch_failure cfgA stPendingA oSyncPosFail).2 [] rfl rfl

/-! ## C4: initialization and the level-count requirement -/

/-- C4 (amended): `InitializeGrid` fails when the grid configuration is
missing, and otherwise — for any configuration, with no validation of the
level count — succeeds whenever the market price fetch succeeds, installs
the grid with `IsInitialized = true`, and (for `gridCount ≥ 2`, where exact
and floating division agree) the stored spacing equals
`(upper − lower) / (gridCount − 1)`. -/
theorem C4_init_accepts_small_count (cfg : GridStrategyConfig)
    (gauss : Nat → ℚ) (o : InitOracle) (price : ℚ)
    (hp : o.marketPrice = some price) :
    InitializeGrid none gauss o = none ∧
    ∃ st, InitializeGrid (some cfg) gauss o = some st ∧
      st.IsInitialized = true ∧
      (2 ≤ cfg.GridCount →
        st.GridSpacing = (st.UpperPrice - st.LowerPrice) /
          ((cfg.GridCount : ℚ) - 1)) := by
  refine ⟨rfl, ?_⟩
  unfold InitializeGrid
  rw [hp]
  exact ⟨_, rfl, rfl, fun _ => rfl⟩

/-- C4 counterexample: a configuration with `gridCount = 1` (< 2) is not
rejected — initialization succeeds and the grid is installed with
`isInitialized = true`, contradicting the claimed `ConfigError`. -/
theorem C4_counterexample :
    cfgOne.GridCount < 2 ∧
    (InitializeGrid (some cfgOne) gaussOne oInit100).map
      GridState.IsInitialized = some true := by decide

/-- C4 witness: concrete instance of the amended initialization
behaviour. -/
theorem C4_init_accepts_small_count_witness :
    InitializeGrid none gaussOne oInit100 = none ∧
    ∃ st, InitializeGrid (some cfgOne) gaussOne oInit100 = some st ∧
      st.IsInitialized = true ∧
      (2 ≤ cfgOne.GridCount →
        st.GridSpacing = (st.UpperPrice - st.LowerPrice) /
          ((cfgOne.GridCount : ℚ) - 1)) :=
  C4_init_accepts_small_count cfgOne gaussOne oInit100 100 rfl

/-! ## C5: out-of-range level indices -/

/-- C5 (amended): a place decision whose level index is out of
`[0, levelCount)` never mutates `GridState` — no level is touched and the
order book is unchanged — but the order itself is still submitted to the
exchange whenever the risk checks pass (every successful run has
`submitted = true`). -/
theorem C5_out_of_range_frame (cfg : GridStrategyConfig) (st : GridState)
    (d : Decision) (side : String) (o : PlaceOracle)
    (hcond : ¬ (0 ≤ d.LevelIndex ∧
      d.LevelIndex < (st.Levels.length : Int))) :
    (placeGridLimitOrder cfg st d side o).state = st ∧
    ((placeGridLimitOrder cfg st d side o).error = none →
      (placeGridLimitOrder cfg st d side o).submitted = true) := by
  unfold placeGridLimitOrder
  cases hq : riskCappedQuantity cfg st d with
  | none => exact ⟨rfl, fun hce => (Option.some_ne_none _ hce).elim⟩
  | some quantity =>
    dsimp only
    by_cases hlim : (checkTotalPositionLimit cfg st d.Symbol
        (quantity * d.Price) o.positions).1 = true
    · rw [if_pos hlim]
      cases hpr : o.placeResult with
      | none => exact ⟨rfl, fun _ => rfl⟩
      | some result =>
        dsimp only
        rw [if_neg hcond]
        exact ⟨rfl, fun _ => rfl⟩
    · rw [if_neg hlim]
      exact ⟨rfl, fun hce => (Option.some_ne_none _ hce).elim⟩

/-- C5 counterexample: an out-of-range decision passing the risk checks is
*not* ignored at the exchange — the order is submitted
(`submitted = true`, no error), contradicting "no order is submitted". -/
theorem C5_counterexample :
    ¬ (0 ≤ dOutOfRange.LevelIndex ∧
        dOutOfRange.LevelIndex < (stEmptyA.Levels.length : Int)) ∧
    (placeGridLimitOrder cfgA stEmptyA dOutOfRange "BUY" oPlaceOK).submitted
      = true ∧
    (placeGridLimitOrder cfgA stEmptyA dOutOfRange "BUY" oPlaceOK).error =
      none := by decide

/-- C5 witness: state unchanged on a concrete out-of-range decision. -/
theorem C5_out_of_range_frame_witness :
    (placeGridLimitOrder cfgA stEmptyA dOutOfRange "BUY" oPlaceOK).state =
      stEmptyA :=
  (C5_out_of_range_frame cfgA stEmptyA dOutOfRange "BUY" oPlaceOK
    (by decide)).1

/-! ## C6: adjust_grid -/

/-- C6 (amended): a successful `adjustGrid` (market price available) fully
replaces the ladder with a fresh one of length equal to the configured
level count, every new level `empty` with an empty order id, and preserves
all aggregate counters — but it retains the previously stored bounds and
spacing; they are not recomputed. -/
theorem C6_adjust_grid (cfg : GridStrategyConfig) (gauss : Nat → ℚ)
    (st : GridState) (ok : Bool) (price : ℚ) :
    (adjustGrid cfg gauss st ok (some price)).2 = true ∧
    (adjustGrid cfg gauss st ok (some price)).1.Levels.length =
      cfg.GridCount.toNat ∧
    (∀ i < (adjustGrid cfg gauss st ok (some price)).1.Levels.length,
      (levelAt (adjustGrid cfg gauss st ok (some price)).1 i).State =
        "empty" ∧
      (levelAt (adjustGrid cfg gauss st ok (some price)).1 i).OrderID =
        "") ∧
    (adjustGrid cfg gauss st ok (some price)).1.TotalProfit =
      st.TotalProfit ∧
    (adjustGrid cfg gauss st ok (some price)).1.TotalTrades =
      st.TotalTrades ∧
    (adjustGrid cfg gauss st ok (some price)).1.WinningTrades =
      st.WinningTrades ∧
    (adjustGrid cfg gauss st ok (some price)).1.MaxDrawdown =
      st.MaxDrawdown ∧
    (adjustGrid cfg gauss st ok (some price)).1.DailyPnL = st.DailyPnL ∧
    (adjustGrid cfg gauss st ok (some price)).1.UpperPrice =
      st.UpperPrice ∧
    (adjustGrid cfg gauss st ok (some price)).1.LowerPrice =
      st.LowerPrice ∧
    (adjustGrid cfg gauss st ok (some price)).1.GridSpacing =
      st.GridSpacing := by
  cases ok with
  | false =>
    refine ⟨rfl, ?_, ?_, rfl, rfl, rfl, rfl, rfl, rfl, rfl, rfl⟩
    · show (initializeGridLevels cfg gauss _ price).length =
        cfg.GridCount.toNat
      unfold initializeGridLevels
      simp
    · intro i hi
      exact initializeGridLevels_fresh cfg gauss _ price i hi
  | true =>
    refine ⟨rfl, ?_, ?_, rfl, rfl, rfl, rfl, rfl, rfl, rfl, rfl⟩
    · show (initializeGridLevels cfg gauss _ price).length =
        cfg.GridCount.toNat
      unfold initializeGridLevels
      simp
    · intro i hi
      exact initializeGridLevels_fresh cfg gauss _ price i hi

/-- C6 counterexample: a state whose stored spacing 7 differs from the
bounds formula value keeps spacing 7 across a successful `adjustGrid` —
the spacing is not recomputed, contradicting the claim. -/
theorem C6_counterexample :
    (adjustGrid cfgA gaussOne stSpacing7 true (some 100)).2 = true ∧
    (adjustGrid cfgA gaussOne stSpacing7 true (some 100)).1.GridSpacing =
      7 ∧
    (7 : ℚ) ≠ (stSpacing7.UpperPrice - stSpacing7.LowerPrice) /
      ((cfgA.GridCount : ℚ) - 1) := by decide

/-- C6 witness: concrete instance of the amended adjust behaviour. -/
theorem C6_adjust_grid_witness :
    (adjustGrid cfgA gaussOne stPendingA true (some 100)).2 = true ∧
    (adjustGrid cfgA gaussOne stPendingA true (some 100)).1.Levels.length =
      cfgA.GridCount.toNat :=
  ⟨(C6_adjust_grid cfgA gaussOne stPendingA true 100).1,
   (C6_adjust_grid cfgA gaussOne stPendingA true 100).2.1⟩

/-! ## C7: stop-loss evaluation -/

/-- C7: with a configured stop-loss percentage > 0 and the market price
available, the stop-loss evaluation issues a close — long-close for a
buy-side level, short-close for a sell-side level, sized at
`PositionSize` — exactly for the filled levels with positive entry whose
loss percentage (`gridLossPct`) reaches the configured stop-loss; when the
close succeeds the level becomes `stopped` with
`unrealizedPnL = −loss% × allocatedUSD / 100`, when it fails the level is
unchanged (stays `filled`), and `totalTrades` grows by the number of
successful closes. -/
theorem C7_stop_loss (cfg : GridStrategyConfig) (st : GridState) (cur : ℚ)
    (closeOk : Nat → Bool) (hsl : 0 < cfg.StopLossPct) :
    (∀ i < st.Levels.length,
      (slTrigger cfg cur (levelAt st i) ↔
        (⟨i, decide ((levelAt st i).Side = "buy"), cfg.Symbol,
            (levelAt st i).PositionSize⟩ : CloseCall) ∈
          (checkAndExecuteStopLoss cfg st (some cur) closeOk).2) ∧
      (slTrigger cfg cur (levelAt st i) → closeOk i = true →
        levelAt (checkAndExecuteStopLoss cfg st (some cur) closeOk).1 i =
          { levelAt st i with
            State := "stopped"
            UnrealizedPnL := -(gridLossPct (levelAt st i).Side
                (levelAt st i).PositionEntry cur) *
              (levelAt st i).AllocatedUSD / 100 }) ∧
      (¬ (slTrigger cfg cur (levelAt st i) ∧ closeOk i = true) →
        levelAt (checkAndExecuteStopLoss cfg st (some cur) closeOk).1 i =
          levelAt st i)) ∧
    (checkAndExecuteStopLoss cfg st (some cur) closeOk).1.TotalTrades =
      st.TotalTrades + ((List.range st.Levels.length).countP fun i =>
        decide (slTrigger cfg cur (levelAt st i)) && closeOk i) := by
  have hsl' : ¬ cfg.StopLossPct ≤ 0 := not_le.mpr hsl
  have hL : (checkAndExecuteStopLoss cfg st (some cur) closeOk).1.Levels =
      (List.range st.Levels.length).map (slNewLevel cfg cur closeOk st) := by
    unfold checkAndExecuteStopLoss
    rw [if_neg hsl']
  have hC : (checkAndExecuteStopLoss cfg st (some cur) closeOk).2 =
      (List.range st.Levels.length).filterMap (slCloseCall cfg cur st) := by
    unfold checkAndExecuteStopLoss
    rw [if_neg hsl']
  have hT :
      (checkAndExecuteStopLoss cfg st (some cur) closeOk).1.TotalTrades =
      st.TotalTrades + ((List.range st.Levels.length).countP fun i =>
        decide (slTrigger cfg cur (levelAt st i)) && closeOk i) := by
    unfold checkAndExecuteStopLoss
    rw [if_neg hsl']
  refine ⟨?_, hT⟩
  intro i hi
  refine ⟨?_, ?_, ?_⟩
  · rw [hC]
    constructor
    · intro ht
      refine List.mem_filterMap.mpr ⟨i, List.mem_range.mpr hi, ?_⟩
      unfold slCloseCall
      rw [if_pos ht]
    · intro hm
      obtain ⟨j, hj, he⟩ := List.mem_filterMap.mp hm
      unfold slCloseCall at he
      by_cases htj : slTrigger cfg cur (levelAt st j)
      · rw [if_pos htj] at he
        injection he with he2
        have hji : j = i := congrArg CloseCall.levelIndex he2
        exact hji ▸ htj
      · rw [if_neg htj] at he
        exact Option.noConfusion he
  · intro ht hok
    unfold levelAt
    rw [hL, getD_map_range _ _ hi]
    unfold slNewLevel
    rw [if_pos ⟨ht, hok⟩]
    rfl
  · intro hnt
    unfold levelAt
    rw [hL, getD_map_range _ _ hi]
    unfold slNewLevel
    rw [if_neg hnt]
    rfl

/-- C7 witness: buy-side filled level with entry 100 and stop-loss 5%:
price 94 (loss 6%) stops the level, price 97 (loss 3%) leaves it filled. -/
theorem C7_stop_loss_witness :
    (levelAt (checkAndExecuteStopLoss cfgA stFilled (some 94)
      (fun _ => true)).1 0).State = "stopped" ∧
    (levelAt (checkAndExecuteStopLoss cfgA stFilled (some 97)
      (fun _ => true)).1 0).State = "filled" := by
  constructor
  · have h := ((C7_stop_loss cfgA stFilled 94 (fun _ => true)
      (by decide)).1 0 (by decide)).2.1 (by decide) rfl
    rw [h]
  · have h := ((C7_stop_loss cfgA stFilled 97 (fun _ => true)
      (by decide)).1 0 (by decide)).2.2 (by decide)
    rw [h]
    decide

/-! ## C8: per-level capping -/

/-- C8 (amended): when the requested quantity exceeds the per-level cap
(the minimum of `totalInvestment/levelCount × leverage / price` and, for a
positive level allocation, `allocatedUSD × leverage / price`) while the
capped value stays within the absolute safety margin and the total
position limit, and the exchange accepts the order, the submitted quantity
equals the cap exactly and the clamp is idempotent — but the level's
`orderQuantity` field records the originally requested `d.Quantity`, not
the quantity of the order actually submitted. -/
theorem C8_clamp_exact (cfg : GridStrategyConfig) (st : GridState)
    (d : Decision) (side : String) (o : PlaceOracle)
    (res : PlaceOrderResult) (hp : d.Price > 0)
    (hti : cfg.TotalInvestment > 0)
    (hq : d.Quantity >
      perLevelMaxQty cfg (levelAllocatedUSDOf st d.LevelIndex) d.Price)
    (hsafe : ¬ perLevelMaxQty cfg (levelAllocatedUSDOf st d.LevelIndex)
        d.Price * d.Price >
      cfg.TotalInvestment * (cfg.Leverage : ℚ) * 2)
    (hlim : (checkTotalPositionLimit cfg st d.Symbol
        (perLevelMaxQty cfg (levelAllocatedUSDOf st d.LevelIndex) d.Price *
          d.Price) o.positions).1 = true)
    (hres : o.placeResult = some res) :
    (placeGridLimitOrder cfg st d side o).error = none ∧
    (placeGridLimitOrder cfg st d side o).submitted = true ∧
    (placeGridLimitOrder cfg st d side o).submittedQty =
      perLevelMaxQty cfg (levelAllocatedUSDOf st d.LevelIndex) d.Price ∧
    (∀ q m : ℚ, clampQty (clampQty q m) m = clampQty q m) ∧
    (levelAllocatedUSDOf st d.LevelIndex > 0 →
      perLevelMaxQty cfg (levelAllocatedUSDOf st d.LevelIndex) d.Price =
        min (cfg.TotalInvestment / (cfg.GridCount : ℚ) *
            (cfg.Leverage : ℚ) / d.Price)
          (levelAllocatedUSDOf st d.LevelIndex * (cfg.Leverage : ℚ) /
            d.Price)) ∧
    (0 ≤ d.LevelIndex → d.LevelIndex < (st.Levels.length : Int) →
      (levelAt (placeGridLimitOrder cfg st d side o).state
        d.LevelIndex.toNat).OrderQuantity = d.Quantity) := by
  have hclamp : clampQty d.Quantity
      (perLevelMaxQty cfg (levelAllocatedUSDOf st d.LevelIndex) d.Price) =
      perLevelMaxQty cfg (levelAllocatedUSDOf st d.LevelIndex) d.Price := by
    unfold clampQty
    rw [if_pos hq]
  have hrc : riskCappedQuantity cfg st d =
      some (perLevelMaxQty cfg (levelAllocatedUSDOf st d.LevelIndex)
        d.Price) := by
    unfold riskCappedQuantity
    rw [if_pos ⟨hp, hti⟩]
    dsimp only
    rw [hclamp, if_neg hsafe]
  have hidem : ∀ q m : ℚ, clampQty (clampQty q m) m = clampQty q m := by
    intro q m
    unfold clampQty
    by_cases h : q > m
    · simp [h]
    · simp [h]
  have hmin : levelAllocatedUSDOf st d.LevelIndex > 0 →
      perLevelMaxQty cfg (levelAllocatedUSDOf st d.LevelIndex) d.Price =
        min (cfg.TotalInvestment / (cfg.GridCount : ℚ) *
            (cfg.Leverage : ℚ) / d.Price)
          (levelAllocatedUSDOf st d.LevelIndex * (cfg.Leverage : ℚ) /
            d.Price) := by
    intro hpos
    unfold perLevelMaxQty
    dsimp only
    rw [if_pos hpos]
    rcases lt_or_ge
        (levelAllocatedUSDOf st d.LevelIndex * (cfg.Leverage : ℚ) /
          d.Price)
        (cfg.TotalInvestment / (cfg.GridCount : ℚ) * (cfg.Leverage : ℚ) /
          d.Price) with hlt | hge
    · rw [if_pos hlt, min_eq_right hlt.le]
    · rw [if_neg (not_lt.mpr hge), min_eq_left hge]
  by_cases hcond : 0 ≤ d.LevelIndex ∧
      d.LevelIndex < (st.Levels.length : Int)
  · have key : placeGridLimitOrder cfg st d side o =
        ⟨{ st with
            Levels := st.Levels.set d.LevelIndex.toNat
              { levelAt st d.LevelIndex.toNat with
                State := "pending", OrderID := res.OrderID,
                OrderQuantity := d.Quantity }
            OrderBook := obInsert res.OrderID d.LevelIndex st.OrderBook },
          none, true,
          perLevelMaxQty cfg (levelAllocatedUSDOf st d.LevelIndex)
            d.Price⟩ := by
      unfold placeGridLimitOrder
      rw [hrc]
      dsimp only
      rw [if_pos hlim, hres]
      dsimp only
      rw [if_pos hcond]
    rw [key]
    refine ⟨rfl, rfl, rfl, hidem, hmin, ?_⟩
    intro h0 hlt
    have hitn : d.LevelIndex.toNat < st.Levels.length := by omega
    unfold levelAt
    dsimp only
    rw [getD_set_self _ _ _ hitn]
  · have key : placeGridLimitOrder cfg st d side o =
        ⟨st, none, true,
          perLevelMaxQty cfg (levelAllocatedUSDOf st d.LevelIndex)
            d.Price⟩ := by
      unfold placeGridLimitOrder
      rw [hrc]
      dsimp only
      rw [if_pos hlim, hres]
      dsimp only
      rw [if_neg hcond]
    rw [key]
    refine ⟨rfl, rfl, rfl, hidem, hmin, ?_⟩
    intro h0 hlt
    exact absurd ⟨h0, hlt⟩ hcond

/-- C8 counterexample: requested 300, cap 10 — the submitted quantity is
the cap (10) but the level's `orderQuantity` records 300, so
`orderQuantity` does not equal the resting order's submitted quantity. -/
theorem C8_counterexample :
    (placeGridLimitOrder cfgA stEmptyA dPlace300 "BUY"
      oPlaceOK).submittedQty = 10 ∧
    (levelAt (placeGridLimitOrder cfgA stEmptyA dPlace300 "BUY"
      oPlaceOK).state 0).OrderQuantity = 300 ∧
    (levelAt (placeGridLimitOrder cfgA stEmptyA dPlace300 "BUY"
      oPlaceOK).state 0).OrderQuantity ≠
      (placeGridLimitOrder cfgA stEmptyA dPlace300 "BUY"
        oPlaceOK).submittedQty := by decide

/-- C8 witness: concrete clamped submission. -/
theorem C8_clamp_exact_witness :
    (placeGridLimitOrder cfgA stEmptyA dPlace300 "BUY" oPlaceOK).error =
      none ∧
    (placeGridLimitOrder cfgA stEmptyA dPlace300 "BUY"
      oPlaceOK).submittedQty =
      perLevelMaxQty cfgA (levelAllocatedUSDOf stEmptyA 0) 10 := by
  have h := C8_clamp_exact cfgA stEmptyA dPlace300 "BUY" oPlaceOK
    { OrderID := "OID1" } (by decide) (by decide) (by decide) (by decide)
    (by decide) rfl
  exact ⟨h.1, h.2.2.1⟩

/-! ## C9: allocation sums to the total investment -/

/-- C9: for every distribution and every configuration with at least one
level, the allocations `totalInvestment × weight / Σweights` produced by
`initializeGridLevels` sum to exactly `totalInvestment` (in exact
arithmetic).  The positivity hypothesis on `gauss` is the property the
gaussian weight `exp(...)` always has; uniform and pyramid weights are
positive by construction. -/
theorem C9_allocation_sum (cfg : GridStrategyConfig) (gauss : Nat → ℚ)
    (st : GridState) (price : ℚ) (hN : 1 ≤ cfg.GridCount)
    (hg : ∀ i, 0 < gauss i) :
    ((initializeGridLevels cfg gauss st price).map
      GridLevelInfo.AllocatedUSD).sum = cfg.TotalInvestment := by
  have hWpos : ∀ w ∈ gridWeights cfg gauss, 0 < w := by
    intro w hw
    unfold gridWeights at hw
    obtain ⟨i, hi, rfl⟩ := List.mem_map.mp hw
    have hi' := List.mem_range.mp hi
    by_cases hgauss : cfg.Distribution = "gaussian"
    · rw [if_pos hgauss]
      exact hg i
    · rw [if_neg hgauss]
      by_cases hpyr : cfg.Distribution = "pyramid"
      · rw [if_pos hpyr]
        have hii : (i : Int) < cfg.GridCount := by omega
        have h2 : (i : ℚ) < ((cfg.GridCount : Int) : ℚ) := by
          exact_mod_cast hii
        linarith
      · rw [if_neg hpyr]
        norm_num
  have hlen : (gridWeights cfg gauss).length = cfg.GridCount.toNat := by
    unfold gridWeights
    simp
  have hne : gridWeights cfg gauss ≠ [] := by
    have hpos : 0 < (gridWeights cfg gauss).length := by
      rw [hlen]
      omega
    exact List.length_pos.mp hpos
  have hW : 0 < (gridWeights cfg gauss).sum :=
    List.sum_pos _ hWpos hne
  have hmap : (initializeGridLevels cfg gauss st price).map
      GridLevelInfo.AllocatedUSD =
      (gridWeights cfg gauss).map
        (fun w => cfg.TotalInvestment * w / (gridWeights cfg gauss).sum) := by
    unfold initializeGridLevels
    dsimp only
    rw [List.map_map]
    have hcomp : (GridLevelInfo.AllocatedUSD ∘ fun i =>
        mkGridLevel cfg st price (gridWeights cfg gauss).sum i
          ((gridWeights cfg gauss).getD i 0)) =
        ((fun w => cfg.TotalInvestment * w / (gridWeights cfg gauss).sum) ∘
          fun i => (gridWeights cfg gauss).getD i 0) := by
      funext i
      rfl
    rw [hcomp, ← hlen, ← List.map_map, map_getD_range]
  rw [hmap]
  have hdiv : (fun w : ℚ =>
      cfg.TotalInvestment * w / (gridWeights cfg gauss).sum) =
      (fun w : ℚ =>
        (cfg.TotalInvestment / (gridWeights cfg gauss).sum) * w) := by
    funext w
    ring
  rw [hdiv, sum_map_mul_left_rat, div_mul_cancel₀]
  exact hW.ne'

/-- C9 witness: uniform allocation of 1000 over 10 levels sums to 1000. -/
theorem C9_allocation_sum_witness :
    ((initializeGridLevels cfgA gaussOne stEmptyA 100).map
      GridLevelInfo.AllocatedUSD).sum = cfgA.TotalInvestment :=
  C9_allocation_sum cfgA gaussOne stEmptyA 100 (by decide)
    (fun _ => one_pos)

/-! ## C10: close decisions touch no grid state -/

/-- C10: executing a `close_long` or `close_short` decision delegates to
the trader's close operation with the decision's symbol and quantity and
returns the grid state unchanged — no level, counter or order-book
mutation. -/
theorem C10_close_delegation (cfg : GridStrategyConfig) (gauss : Nat → ℚ)
    (st : GridState) (d : Decision) (o : ExecOracle) :
    (d.Action = "close_long" →
      executeGridDecision cfg gauss st d o =
        (st, { ExecEffect.nil with
          closeLongCall := some (d.Symbol, d.Quantity),
          err := !o.closeOk })) ∧
    (d.Action = "close_short" →
      executeGridDecision cfg gauss st d o =
        (st, { ExecEffect.nil with
          closeShortCall := some (d.Symbol, d.Quantity),
          err := !o.closeOk })) := by
  constructor <;> intro h <;> simp [executeGridDecision, h]

/-- C10 witness: a concrete close-long decision leaves the state intact. -/
theorem C10_close_delegation_witness :
    executeGridDecision cfgA gaussOne stPendingA dCloseLong oExecA =
      (stPendingA, { ExecEffect.nil with
        closeLongCall := some (dCloseLong.Symbol, dCloseLong.Quantity),
        err := !oExecA.closeOk }) :=
  (C10_close_delegation cfgA gaussOne stPendingA dCloseLong oExecA).1 rfl

/-! ## C2: the bookkeeping invariant -/

/-- C2 (amended): starting from a state satisfying the invariant
(`orderID ≠ "" ⟺ pending`, order book mirrors the pending levels), the
operations `cancelGridOrder`, `cancelAllGridOrders`, `pauseGrid`,
`resumeGrid` and `checkAndExecuteStopLoss` preserve it unconditionally;
`adjustGrid` preserves it when the cancel-all call succeeds; and
`placeGridLimitOrder` preserves it provided any accepted order carries a
non-empty, not-yet-tracked order id and the target level is not already
pending.  (`syncGridState` does not preserve it: see the
counterexample.) -/
theorem C2_invariant_preservation (cfg : GridStrategyConfig)
    (gauss : Nat → ℚ) (st : GridState) (hinv : gridInv st) :
    (∀ d ok, gridInv (cancelGridOrder st d ok).1) ∧
    (∀ ok, gridInv (cancelAllGridOrders st ok).1) ∧
    (∀ ok, gridInv (pauseGrid st ok)) ∧
    gridInv (resumeGrid st) ∧
    (∀ price? closeOk,
      gridInv (checkAndExecuteStopLoss cfg st price? closeOk).1) ∧
    (∀ price?, gridInv (adjustGrid cfg gauss st true price?).1) ∧
    (∀ d side o, (∀ res, o.placeResult = some res →
        res.OrderID ≠ "" ∧ obLookup st.OrderBook res.OrderID = none) →
      (0 ≤ d.LevelIndex → d.LevelIndex < (st.Levels.length : Int) →
        (levelAt st d.LevelIndex.toNat).State ≠ "pending") →
      gridInv (placeGridLimitOrder cfg st d side o).state) :=
  ⟨fun d ok => gridInv_cancelGridOrder st d ok hinv,
   fun ok => gridInv_cancelAllGridOrders st ok hinv,
   fun ok => gridInv_pauseGrid st ok hinv,
   gridInv_resumeGrid st hinv,
   fun p c => gridInv_checkAndExecuteStopLoss cfg st p c hinv,
   fun p => gridInv_adjustGrid cfg gauss st p hinv,
   fun d side o hres hnp =>
     gridInv_placeGridLimitOrder cfg st d side o hinv hres hnp⟩

/-- C2 counterexample: the reconciliation fill transition keeps the filled
level's order id and the order-book entry, so `syncGridState` breaks the
invariant on a state that satisfies it. -/
theorem C2_counterexample :
    gridInv stPendingA ∧
    ¬ gridInv (syncGridState cfgA stPendingA oSyncPosFail) := by decide

/-- C2 witness: the invariant holds on a concrete state and is preserved
by a concrete operation. -/
theorem C2_invariant_preservation_witness :
    gridInv stPendingA ∧ gridInv (resumeGrid stPendingA) :=
  ⟨by decide,
   (C2_invariant_preservation cfgA gaussOne stPendingA (by decide)).2.2.2.1⟩

end Grid
